import Mathlib

/-!
Shallow embedding of the sandboxed action-execution subsystem of the
MetisAI backend (files `backend/runtime/config.py`,
`backend/runtime/docker_runtime.py`, `backend/runtime/action_executor.py`).

Modelling conventions:
* Python dictionaries keyed by strings are association lists whose keys are
  unique (Python dicts cannot hold duplicate keys); `del d[k]` is a filter
  and `d[k] = v` is an overwrite-or-append.
* The external world (the docker CLI, the wall clock, uuid generation) is an
  explicit oracle `DockerBehavior`: each field records what the next docker
  subprocess of a given kind does (its exit code, stdout, stderr and wall
  duration).  All repository functions are deterministic given the oracle.
* Durations and timeouts are rationals (Python floats/ints measured in
  seconds); the elapsed time of `asyncio.wait_for(fut, timeout)` is the
  future's own duration when it beats the deadline and exactly the deadline
  otherwise.
* Exceptions are `Except String`; `asyncio.CancelledError` (a
  `BaseException`, not caught by `except Exception`) is modelled separately
  where it matters (ActionServer.cancel_action / get_action_result).
* Each `DockerRuntime` method invocation is logged in an op trace
  (`RuntimeOp`) so that "no runtime operation is invoked" is a statement
  about the trace being empty.
-/

namespace MetisRuntime

/-- ActionType enum of action_executor.py. -/
inductive ActionType
  | execute_command
  | run_code
  | transfer_file
  | get_file
  | put_file
  | delete_file
  | list_directory
  | check_status
  | custom
deriving DecidableEq, Repr

/-- ActionStatus enum of action_executor.py. -/
inductive ActionStatus
  | pending
  | running
  | completed
  | failed
  | timed_out
  | cancelled
deriving DecidableEq, Repr

/-- Container status info returned by DockerRuntime.get_container_status. -/
structure ContainerStatusInfo where
  container_id : String
  name : String
  status : String
  cpu_usage : Int
  memory_usage : Int
  created_at : ℚ
  error : Option String
deriving DecidableEq, Repr

/-- A Python value as it appears in the `Dict[str, Any]` parameter /
result / metadata bags of the executor. -/
inductive Value
  | str (s : String)
  | int (n : Int)
  | bool (b : Bool)
  | statusInfo (i : ContainerStatusInfo)
deriving DecidableEq, Repr

/-- `d.get(k)` on a string-keyed Python dict. -/
def getParam (ps : List (String × Value)) (k : String) : Option Value :=
  (ps.find? fun p => p.1 == k).map Prod.snd

/-- `d[k] = v` on a string-keyed Python dict (overwrite or append). -/
def setKey (l : List (String × Value)) (k : String) (v : Value) :
    List (String × Value) :=
  if (l.find? fun p => p.1 == k).isSome then
    l.map fun p => if p.1 == k then (k, v) else p
  else
    l ++ [(k, v)]

/-- Apply a sequence of dict assignments. -/
def applyUpdates (l : List (String × Value)) (us : List (String × Value)) :
    List (String × Value) :=
  us.foldl (fun acc p => setKey acc p.1 p.2) l

/-- Python truthiness (`if not x`) of an optional dict value. -/
def pyTruthy : Option Value → Bool
  | none => false
  | some (.str s) => !(s == "")
  | some (.int n) => !(n == 0)
  | some (.bool b) => b
  | some (.statusInfo _) => true

/-- Read a value that the handlers pass on as a string (parameters such as
command / paths / container ids are strings in every caller). -/
def asStr : Option Value → String
  | some (.str s) => s
  | _ => ""

/-- ActionRequest model (pydantic BaseModel in action_executor.py).
`sandbox_options` is only forwarded verbatim to `create_container` and never
inspected by the executor, so it is not carried here. -/
structure ActionRequest where
  action_type : ActionType
  parameters : List (String × Value) := []
  timeout : ℚ := 300
  metadata : List (String × Value) := []
deriving DecidableEq, Repr

/-- ActionResponse model. -/
structure ActionResponse where
  action_id : String
  status : ActionStatus
  result : Option (List (String × Value)) := none
  error : Option String := none
  execution_time : ℚ := 0
  metadata : List (String × Value) := []
deriving DecidableEq, Repr

/-- Per-container record kept in DockerRuntime._containers (the `options`
snapshot is stored but never read back by the modelled operations). -/
structure ContainerInfo where
  name : String
  status : String
  created_at : ℚ
deriving DecidableEq, Repr

/-- DockerRuntime._containers. -/
abbrev ContainerTable := List (String × ContainerInfo)

def lookupContainer (t : ContainerTable) (cid : String) : Option ContainerInfo :=
  (t.find? fun p => p.1 == cid).map Prod.snd

/-- `container_id in self._containers`. -/
def containsContainer (t : ContainerTable) (cid : String) : Bool :=
  (lookupContainer t cid).isSome

/-- `self._containers[container_id]["status"] = st`. -/
def setContainerStatus (t : ContainerTable) (cid : String) (st : String) :
    ContainerTable :=
  t.map fun p => if p.1 == cid then (p.1, { p.2 with status := st }) else p

/-- `self._containers[container_id] = info` (dict overwrite-or-append). -/
def insertContainer (t : ContainerTable) (cid : String) (info : ContainerInfo) :
    ContainerTable :=
  if containsContainer t cid then
    t.map fun p => if p.1 == cid then (cid, info) else p
  else
    t ++ [(cid, info)]

/-- `del self._containers[container_id]`. -/
def removeContainerEntry (t : ContainerTable) (cid : String) : ContainerTable :=
  t.filter fun p => !(p.1 == cid)

/-- Which DockerRuntime method an execution invoked (one entry per method
call, recorded at method entry). -/
inductive RuntimeOp
  | create
  | exec
  | copyTo
  | copyFrom
  | inspect
  | stop
  | remove
deriving DecidableEq, Repr

/-- Oracle for the external world during one executor call: the outcome of
each kind of docker subprocess the runtime may spawn, the generated
container id/name (uuid) and the clock. -/
structure DockerBehavior where
  newContainerId : String := "cid-0"
  newName : String := "openhands-000000000000"
  now : ℚ := 0
  createExit : Int := 0
  createStderr : String := ""
  startExit : Int := 0
  startStderr : String := ""
  createDuration : ℚ := 0
  execDuration : ℚ := 0
  execExit : Int := 0
  execStdout : String := ""
  execStderr : String := ""
  cpExit : Int := 0
  cpStderr : String := ""
  inspectExit : Int := 0
  inspectStderr : String := ""
  inspectStatus : String := "running"
  cpuUsage : Int := 0
  memoryUsage : Int := 0
  stopExit : Int := 0
  stopStderr : String := ""
  rmExit : Int := 0
  rmStderr : String := ""
deriving DecidableEq, Repr

/-- The exception message raised by DockerRuntime._run_docker_command when
the subprocess exits non-zero and check=True. -/
def dockerFailMsg (stderr : String) : String :=
  "Docker 命令执行失败: " ++ stderr

/-- DEFAULT_CONFIG.resource_limits.timeout (config.py). -/
def defaultTimeout : ℚ := 300

/-- `timeout = timeout or self.config.resource_limits.timeout`
(Python `or`: None and 0 are both falsy). -/
def effectiveTimeout : Option ℚ → ℚ
  | none => defaultTimeout
  | some x => if x = 0 then defaultTimeout else x

/-- Result dict of DockerRuntime.execute_command. -/
structure CommandResult where
  success : Bool
  output : String
  return_code : Int
  error : Option String := none
deriving DecidableEq, Repr

/-- Outcome of one DockerRuntime method invocation: the Python return value
or the raised exception, the container table afterwards, the op trace of
the invocation and the wall time it consumed. -/
structure RtCall (α : Type) where
  result : Except String α
  table : ContainerTable
  ops : List RuntimeOp
  elapsed : ℚ
deriving Repr

/-- DockerRuntime.execute_command (docker_runtime.py lines 197-255).
Raises when the container is unknown; otherwise never raises: a deadline
expiry or a non-zero docker exit is converted into a structured failure
dict with return_code -1. -/
def execute_command (t : ContainerTable) (b : DockerBehavior)
    (cid command : String) (timeout : Option ℚ) : RtCall CommandResult :=
  if containsContainer t cid = false then
    { result := .error ("容器未找到: " ++ cid), table := t, ops := [.exec], elapsed := 0 }
  else
    let tmo := effectiveTimeout timeout
    if b.execDuration ≤ tmo then
      if b.execExit = 0 then
        { result := .ok { success := true, output := b.execStdout, return_code := 0 },
          table := t, ops := [.exec], elapsed := b.execDuration }
      else
        let msg := dockerFailMsg b.execStderr
        { result := .ok { success := false, output := msg, return_code := -1, error := some msg },
          table := t, ops := [.exec], elapsed := b.execDuration }
    else
      { result := .ok { success := false, output := "命令执行超时", return_code := -1,
                        error := some "Timeout" },
        table := t, ops := [.exec], elapsed := tmo }

/-- DockerRuntime.create_container (docker_runtime.py lines 97-174): runs
docker create then docker start; registers the container in the table only
after both succeed, and propagates the engine failure otherwise. -/
def create_container (t : ContainerTable) (b : DockerBehavior) : RtCall String :=
  if b.createExit ≠ 0 then
    { result := .error (dockerFailMsg b.createStderr), table := t,
      ops := [.create], elapsed := b.createDuration }
  else if b.startExit ≠ 0 then
    { result := .error (dockerFailMsg b.startStderr), table := t,
      ops := [.create], elapsed := b.createDuration }
  else
    { result := .ok b.newContainerId,
      table := insertContainer t b.newContainerId
        { name := b.newName, status := "running", created_at := b.now },
      ops := [.create], elapsed := b.createDuration }

/-- DockerRuntime.copy_to_container (lines 257-283): raises on an unknown
container, otherwise returns a boolean and swallows docker cp failures. -/
def copy_to_container (t : ContainerTable) (b : DockerBehavior)
    (cid host_path container_path : String) : RtCall Bool :=
  if containsContainer t cid = false then
    { result := .error ("容器未找到: " ++ cid), table := t, ops := [.copyTo], elapsed := 0 }
  else if b.cpExit = 0 then
    { result := .ok true, table := t, ops := [.copyTo], elapsed := 0 }
  else
    { result := .ok false, table := t, ops := [.copyTo], elapsed := 0 }

/-- DockerRuntime.copy_from_container (lines 285-311). -/
def copy_from_container (t : ContainerTable) (b : DockerBehavior)
    (cid container_path host_path : String) : RtCall Bool :=
  if containsContainer t cid = false then
    { result := .error ("容器未找到: " ++ cid), table := t, ops := [.copyFrom], elapsed := 0 }
  else if b.cpExit = 0 then
    { result := .ok true, table := t, ops := [.copyFrom], elapsed := 0 }
  else
    { result := .ok false, table := t, ops := [.copyFrom], elapsed := 0 }

/-- DockerRuntime.get_container_status (lines 313-353): raises on an
unknown container; converts an inspect failure into status "unknown" with
an error field instead of raising. -/
def get_container_status (t : ContainerTable) (b : DockerBehavior)
    (cid : String) : RtCall ContainerStatusInfo :=
  match lookupContainer t cid with
  | none =>
    { result := .error ("容器未找到: " ++ cid), table := t, ops := [.inspect], elapsed := 0 }
  | some info =>
    if b.inspectExit = 0 then
      { result := .ok { container_id := cid, name := info.name, status := b.inspectStatus,
                        cpu_usage := b.cpuUsage, memory_usage := b.memoryUsage,
                        created_at := info.created_at, error := none },
        table := t, ops := [.inspect], elapsed := 0 }
    else
      { result := .ok { container_id := cid, name := info.name, status := "unknown",
                        cpu_usage := 0, memory_usage := 0,
                        created_at := info.created_at,
                        error := some (dockerFailMsg b.inspectStderr) },
        table := t, ops := [.inspect], elapsed := 0 }

/-- DockerRuntime.stop_container (lines 355-375): raises on an unknown
container; marks the table entry "stopped" when docker stop succeeds and
swallows a docker stop failure into a `false` result. -/
def stop_container (t : ContainerTable) (b : DockerBehavior)
    (cid : String) : RtCall Bool :=
  if containsContainer t cid = false then
    { result := .error ("容器未找到: " ++ cid), table := t, ops := [.stop], elapsed := 0 }
  else if b.stopExit = 0 then
    { result := .ok true, table := setContainerStatus t cid "stopped",
      ops := [.stop], elapsed := 0 }
  else
    { result := .ok false, table := t, ops := [.stop], elapsed := 0 }

/-- DockerRuntime.remove_container (lines 377-410): RAISES on an unknown
container (the membership guard is outside the try block); otherwise stops
a still-running container first, runs docker rm, deletes the table entry
only after docker rm succeeds, and converts a docker rm failure into a
`false` result. -/
def remove_container (t : ContainerTable) (b : DockerBehavior)
    (cid : String) : RtCall Bool :=
  if containsContainer t cid = false then
    { result := .error ("容器未找到: " ++ cid), table := t, ops := [.remove], elapsed := 0 }
  else
    match (get_container_status t b cid).result with
    | .error _ =>
      -- unreachable when the container is present; the surrounding try
      -- would swallow it into a false result
      { result := .ok false, table := t, ops := [.remove, .inspect], elapsed := 0 }
    | .ok info =>
      let stopped :=
        if info.status == "running" then
          let s := stop_container t b cid
          (s.table, [RuntimeOp.stop])
        else (t, [])
      if b.rmExit ≠ 0 then
        { result := .ok false, table := stopped.1,
          ops := [.remove, .inspect] ++ stopped.2, elapsed := 0 }
      else
        { result := .ok true, table := removeContainerEntry stopped.1 cid,
          ops := [.remove, .inspect] ++ stopped.2, elapsed := 0 }

/-- What one action handler invocation produced: the returned result dict or
the raised exception, the container table afterwards, the runtime op trace,
the wall time consumed and the in-place mutations the handler made to
`response.metadata` (these stick even when the handler later fails). -/
structure HandlerOutcome where
  result : Except String (List (String × Value))
  table : ContainerTable
  ops : List RuntimeOp
  elapsed : ℚ
  metaUpdates : List (String × Value)
deriving Repr

/-- The result dict built by _handle_execute_command. -/
def execResultDict (r : CommandResult) : List (String × Value) :=
  [("output", .str r.output), ("return_code", .int r.return_code),
   ("success", .bool r.success)]

/-- ActionExecutor._handle_execute_command (action_executor.py 184-206):
requires a truthy `command`; creates a temp container (recorded in
response.metadata["temp_container"]) when no truthy `container_id` was
supplied; then runs the command. -/
def handle_execute_command (req : ActionRequest) (t : ContainerTable)
    (b : DockerBehavior) : HandlerOutcome :=
  let command := getParam req.parameters "command"
  if pyTruthy command = false then
    { result := .error "命令参数缺失", table := t, ops := [], elapsed := 0, metaUpdates := [] }
  else
    let cidParam := getParam req.parameters "container_id"
    if pyTruthy cidParam then
      let e := execute_command t b (asStr cidParam) (asStr command) (some req.timeout)
      { result := e.result.map execResultDict, table := e.table,
        ops := e.ops, elapsed := e.elapsed, metaUpdates := [] }
    else
      let c := create_container t b
      match c.result with
      | .error msg =>
        { result := .error msg, table := c.table, ops := c.ops,
          elapsed := c.elapsed, metaUpdates := [] }
      | .ok cid =>
        let e := execute_command c.table b cid (asStr command) (some req.timeout)
        { result := e.result.map execResultDict, table := e.table,
          ops := c.ops ++ e.ops, elapsed := c.elapsed + e.elapsed,
          metaUpdates := [("temp_container", .str cid)] }

/-- Python code.replace of a double quote by backslash-backslash-quote,
character by character (every occurrence). -/
def escapeQuoteChars : List Char → List Char
  | [] => []
  | c :: cs =>
    if c = '"' then '\\' :: '\\' :: '"' :: escapeQuoteChars cs
    else c :: escapeQuoteChars cs

def escapeQuotes (s : String) : String :=
  ⟨escapeQuoteChars s.data⟩

/-- The shell command _handle_run_code builds for a given language, or the
exception it raises for an unsupported language.  The Python source
replaces every double quote in the code with backslash-backslash-quote
before splicing it into the interpreter invocation. -/
def runCodeCommand (language : Value) (code : String) : Except String String :=
  if language = .str "python" then
    .ok ("python -c \"" ++ escapeQuotes code ++ "\"")
  else if language = .str "javascript" then
    .ok ("node -e \"" ++ escapeQuotes code ++ "\"")
  else if language = .str "bash" then
    .ok code
  else
    .error ("不支持的语言: " ++ asStr (some language))

/-- ActionExecutor._handle_run_code (action_executor.py 208-243): requires a
truthy `code`; `language` DEFAULTS to "python" when absent; builds the
interpreter command (raising on an unsupported language) before any runtime
call; then proceeds exactly like _handle_execute_command and appends the
language to the result dict. -/
def handle_run_code (req : ActionRequest) (t : ContainerTable)
    (b : DockerBehavior) : HandlerOutcome :=
  let code := getParam req.parameters "code"
  let language := (getParam req.parameters "language").getD (.str "python")
  if pyTruthy code = false then
    { result := .error "代码参数缺失", table := t, ops := [], elapsed := 0, metaUpdates := [] }
  else
    match runCodeCommand language (asStr code) with
    | .error msg =>
      { result := .error msg, table := t, ops := [], elapsed := 0, metaUpdates := [] }
    | .ok command =>
      let cidParam := getParam req.parameters "container_id"
      if pyTruthy cidParam then
        let e := execute_command t b (asStr cidParam) command (some req.timeout)
        { result := e.result.map (fun r => execResultDict r ++ [("language", language)]),
          table := e.table, ops := e.ops, elapsed := e.elapsed, metaUpdates := [] }
      else
        let c := create_container t b
        match c.result with
        | .error msg =>
          { result := .error msg, table := c.table, ops := c.ops,
            elapsed := c.elapsed, metaUpdates := [] }
        | .ok cid =>
          let e := execute_command c.table b cid command (some req.timeout)
          { result := e.result.map (fun r => execResultDict r ++ [("language", language)]),
            table := e.table, ops := c.ops ++ e.ops, elapsed := c.elapsed + e.elapsed,
            metaUpdates := [("temp_container", .str cid)] }

/-- ActionExecutor._handle_transfer_file (245-267): validates source /
destination / container id, then calls copy_to_container and DISCARDS its
boolean result, reporting success unconditionally. -/
def handle_transfer_file (req : ActionRequest) (t : ContainerTable)
    (b : DockerBehavior) : HandlerOutcome :=
  let sp := getParam req.parameters "source_path"
  let dp := getParam req.parameters "destination_path"
  let cid := getParam req.parameters "container_id"
  if !pyTruthy sp || !pyTruthy dp then
    { result := .error "源路径和目标路径参数缺失", table := t, ops := [], elapsed := 0,
      metaUpdates := [] }
  else if pyTruthy cid = false then
    { result := .error "容器 ID 参数缺失", table := t, ops := [], elapsed := 0,
      metaUpdates := [] }
  else
    let c := copy_to_container t b (asStr cid) (asStr sp) (asStr dp)
    match c.result with
    | .error msg =>
      { result := .error msg, table := c.table, ops := c.ops, elapsed := c.elapsed,
        metaUpdates := [] }
    | .ok _ =>
      { result := .ok [("success", .bool true), ("source", (sp).getD (.str "")),
                        ("destination", (dp).getD (.str ""))],
        table := c.table, ops := c.ops, elapsed := c.elapsed, metaUpdates := [] }

/-- ActionExecutor._handle_get_file (269-291): same shape as transfer with
container_path / host_path and copy_from_container; the copy result is
likewise discarded. -/
def handle_get_file (req : ActionRequest) (t : ContainerTable)
    (b : DockerBehavior) : HandlerOutcome :=
  let cp := getParam req.parameters "container_path"
  let hp := getParam req.parameters "host_path"
  let cid := getParam req.parameters "container_id"
  if !pyTruthy cp || !pyTruthy hp then
    { result := .error "容器路径和主机路径参数缺失", table := t, ops := [], elapsed := 0,
      metaUpdates := [] }
  else if pyTruthy cid = false then
    { result := .error "容器 ID 参数缺失", table := t, ops := [], elapsed := 0,
      metaUpdates := [] }
  else
    let c := copy_from_container t b (asStr cid) (asStr cp) (asStr hp)
    match c.result with
    | .error msg =>
      { result := .error msg, table := c.table, ops := c.ops, elapsed := c.elapsed,
        metaUpdates := [] }
    | .ok _ =>
      { result := .ok [("success", .bool true), ("container_path", (cp).getD (.str "")),
                        ("host_path", (hp).getD (.str ""))],
        table := c.table, ops := c.ops, elapsed := c.elapsed, metaUpdates := [] }

/-- ActionExecutor._handle_delete_file (299-320): runs `rm -f path` through
execute_command and reports that command's success flag. -/
def handle_delete_file (req : ActionRequest) (t : ContainerTable)
    (b : DockerBehavior) : HandlerOutcome :=
  let fp := getParam req.parameters "file_path"
  let cid := getParam req.parameters "container_id"
  if pyTruthy fp = false then
    { result := .error "文件路径参数缺失", table := t, ops := [], elapsed := 0, metaUpdates := [] }
  else if pyTruthy cid = false then
    { result := .error "容器 ID 参数缺失", table := t, ops := [], elapsed := 0, metaUpdates := [] }
  else
    let e := execute_command t b (asStr cid) ("rm -f " ++ asStr fp) (some req.timeout)
    { result := e.result.map
        (fun r => [("success", .bool r.success), ("file_path", (fp).getD (.str ""))]),
      table := e.table, ops := e.ops, elapsed := e.elapsed, metaUpdates := [] }

/-- ActionExecutor._handle_list_directory (322-344): runs `ls -la dir`. -/
def handle_list_directory (req : ActionRequest) (t : ContainerTable)
    (b : DockerBehavior) : HandlerOutcome :=
  let dp := getParam req.parameters "directory_path"
  let cid := getParam req.parameters "container_id"
  if pyTruthy dp = false then
    { result := .error "目录路径参数缺失", table := t, ops := [], elapsed := 0, metaUpdates := [] }
  else if pyTruthy cid = false then
    { result := .error "容器 ID 参数缺失", table := t, ops := [], elapsed := 0, metaUpdates := [] }
  else
    let e := execute_command t b (asStr cid) ("ls -la " ++ asStr dp) (some req.timeout)
    { result := e.result.map
        (fun r => [("success", .bool r.success), ("directory", (dp).getD (.str "")),
                   ("content", .str r.output)]),
      table := e.table, ops := e.ops, elapsed := e.elapsed, metaUpdates := [] }

/-- ActionExecutor._handle_check_status (346-359): requires container_id,
then inspects it (get_container_status raises on an unknown id, failing the
action). -/
def handle_check_status (req : ActionRequest) (t : ContainerTable)
    (b : DockerBehavior) : HandlerOutcome :=
  let cid := getParam req.parameters "container_id"
  if pyTruthy cid = false then
    { result := .error "容器 ID 参数缺失", table := t, ops := [], elapsed := 0, metaUpdates := [] }
  else
    let s := get_container_status t b (asStr cid)
    { result := s.result.map
        (fun info => [("success", .bool true), ("container_status", .statusInfo info)]),
      table := s.table, ops := s.ops, elapsed := s.elapsed, metaUpdates := [] }

/-- Which action types have a handler after
_register_default_handlers_sync: every built-in type except CUSTOM (which
is only handled after an explicit register_action_handler call; this model
is the executor as constructed). -/
def hasHandler : ActionType → Bool
  | .custom => false
  | _ => true

/-- Dispatch to the registered default handler (PUT_FILE delegates to the
transfer handler, as in _handle_put_file). -/
def dispatch (req : ActionRequest) (t : ContainerTable) (b : DockerBehavior) :
    HandlerOutcome :=
  match req.action_type with
  | .execute_command => handle_execute_command req t b
  | .run_code => handle_run_code req t b
  | .transfer_file => handle_transfer_file req t b
  | .get_file => handle_get_file req t b
  | .put_file => handle_transfer_file req t b
  | .delete_file => handle_delete_file req t b
  | .list_directory => handle_list_directory req t b
  | .check_status => handle_check_status req t b
  | .custom =>
    { result := .error "不支持的动作类型: custom", table := t, ops := [], elapsed := 0,
      metaUpdates := [] }

/-- Python str() of an ActionType value (used in the unsupported-type
error message). -/
def actionTypeStr : ActionType → String
  | .execute_command => "execute_command"
  | .run_code => "run_code"
  | .transfer_file => "transfer_file"
  | .get_file => "get_file"
  | .put_file => "put_file"
  | .delete_file => "delete_file"
  | .list_directory => "list_directory"
  | .check_status => "check_status"
  | .custom => "custom"

/-- Result of one ActionExecutor.execute_action call. -/
structure ExecutionOutcome where
  response : ActionResponse
  table : ContainerTable
  ops : List RuntimeOp
deriving Repr

/-- ActionExecutor.execute_action (action_executor.py 118-182).
An unregistered action type raises inside the try and becomes an immediate
FAILED response with no handler run.  A successful handler yields COMPLETED
with the measured wall time; a handler exception yields FAILED and — as in
the source — leaves execution_time at its 0.0 default (the except branches
never assign it).  The `except asyncio.TimeoutError` branch of the source
is unreachable with the default handlers because DockerRuntime converts
deadline expiry into a structured result instead of raising, so the model
needs no separate timeout outcome for the handler call. -/
def execute_action (req : ActionRequest) (action_id : String)
    (t : ContainerTable) (b : DockerBehavior) : ExecutionOutcome :=
  if hasHandler req.action_type = false then
    { response := { action_id := action_id, status := .failed,
                    error := some ("不支持的动作类型: " ++ actionTypeStr req.action_type),
                    execution_time := 0, metadata := req.metadata },
      table := t, ops := [] }
  else
    let h := dispatch req t b
    match h.result with
    | .ok d =>
      { response := { action_id := action_id, status := .completed, result := some d,
                      error := none, execution_time := h.elapsed,
                      metadata := applyUpdates req.metadata h.metaUpdates },
        table := h.table, ops := h.ops }
    | .error msg =>
      { response := { action_id := action_id, status := .failed, result := none,
                      error := some msg, execution_time := 0,
                      metadata := applyUpdates req.metadata h.metaUpdates },
        table := h.table, ops := h.ops }

/-- The required-parameter guards of the default handlers, per action type
(mirrors the checks each handler performs before its first runtime call). -/
def requiredMissing (req : ActionRequest) : Bool :=
  match req.action_type with
  | .execute_command => !pyTruthy (getParam req.parameters "command")
  | .run_code => !pyTruthy (getParam req.parameters "code")
  | .transfer_file =>
      !pyTruthy (getParam req.parameters "source_path") ||
      !pyTruthy (getParam req.parameters "destination_path") ||
      !pyTruthy (getParam req.parameters "container_id")
  | .put_file =>
      !pyTruthy (getParam req.parameters "source_path") ||
      !pyTruthy (getParam req.parameters "destination_path") ||
      !pyTruthy (getParam req.parameters "container_id")
  | .get_file =>
      !pyTruthy (getParam req.parameters "container_path") ||
      !pyTruthy (getParam req.parameters "host_path") ||
      !pyTruthy (getParam req.parameters "container_id")
  | .delete_file =>
      !pyTruthy (getParam req.parameters "file_path") ||
      !pyTruthy (getParam req.parameters "container_id")
  | .list_directory =>
      !pyTruthy (getParam req.parameters "directory_path") ||
      !pyTruthy (getParam req.parameters "container_id")
  | .check_status => !pyTruthy (getParam req.parameters "container_id")
  | .custom => false

/-- State of one asyncio.Task tracked by the ActionServer.  `done r` is a
task whose coroutine returned the response r; `cancelled` is a task whose
cancellation was delivered (task.done() is true, task.result() raises). -/
inductive TaskState
  | running
  | done (resp : ActionResponse)
  | cancelled
deriving DecidableEq, Repr

/-- ActionServer._running_actions. -/
abbrev ServerTable := List (String × TaskState)

def lookupTask (s : ServerTable) (aid : String) : Option TaskState :=
  (s.find? fun p => p.1 == aid).map Prod.snd

/-- Python task.done(): true for a completed or cancelled task. -/
def taskDone : TaskState → Bool
  | .running => false
  | .done _ => true
  | .cancelled => true

/-- `del self._running_actions[action_id]`. -/
def eraseTask (s : ServerTable) (aid : String) : ServerTable :=
  s.filter fun p => !(p.1 == aid)

/-- ActionServer.get_action_result (action_executor.py 447-468): a
non-blocking dict read.  Unknown id or unfinished task: returns None and
leaves the table alone.  Finished task: deletes the entry, then returns
task.result() — which, for a task finished by cancellation, raises
CancelledError (modelled as `.error ()`) instead of returning. -/
def get_action_result (s : ServerTable) (aid : String) :
    Except Unit (Option ActionResponse) × ServerTable :=
  match lookupTask s aid with
  | none => (.ok none, s)
  | some .running => (.ok none, s)
  | some (.done r) => (.ok (some r), eraseTask s aid)
  | some .cancelled => (.error (), eraseTask s aid)

/-- ActionServer.cancel_action (action_executor.py 470-500).  Unknown or
already-finished task: returns false, touching nothing.  Running task: the
code calls task.cancel() and then awaits the task; since execute_action
never catches BaseException, awaiting the freshly-cancelled task raises
CancelledError, which the `except asyncio.CancelledError` branch turns into
a `return True` WITHOUT executing the `del` that only the non-raising path
contains — so the (now cancelled) task stays in the table. -/
def cancel_action (s : ServerTable) (aid : String) : Bool × ServerTable :=
  match lookupTask s aid with
  | none => (false, s)
  | some ts =>
    if taskDone ts then (false, s)
    else
      (true, s.map fun p => if p.1 == aid then (p.1, TaskState.cancelled) else p)

/-- ActionServer.get_running_actions (502-505): the table's keys. -/
def get_running_actions (s : ServerTable) : List String :=
  s.map Prod.fst

/-- Python str.isdigit() restricted to ASCII: nonempty and all digits. -/
def pyIsdigit (s : String) : Bool :=
  !(s == "") && s.data.all Char.isDigit

/-- Remove the first occurrence of a character (Python
s.replace(c, "", 1)). -/
def removeFirstChar (c : Char) : List Char → List Char
  | [] => []
  | x :: xs => if x = c then xs else x :: removeFirstChar c xs

/-- Python s.replace(".", "", 1). -/
def replaceFirstDot (s : String) : String :=
  ⟨removeFirstChar '.' s.data⟩

/-- The validate_cpu check of config.py (lines 34-39):
v.isdigit() or (v.replace(".", "", 1).isdigit() and v.count(".") < 2).
Note it accepts "0": positivity is NOT checked. -/
def cpu_format_ok (v : String) : Bool :=
  pyIsdigit v || (pyIsdigit (replaceFirstDot v) && v.data.count '.' < 2)

/-- The validate_memory / validate_disk check of config.py (lines 41-59):
length at least 2, and either the last character is one of K/M/G/T (the
magnitude itself is NOT checked) or the whole string is digits. -/
def mem_format_ok (v : String) : Bool :=
  decide (2 ≤ v.length) &&
  ((v.back = 'K' || v.back = 'M' || v.back = 'G' || v.back = 'T') || pyIsdigit v)

/-- ResourceLimits (config.py 25-59). -/
structure ResourceLimits where
  cpu : String := "1"
  memory : String := "1G"
  disk : String := "10G"
  timeout : Int := 300
  max_processes : Int := 10
deriving DecidableEq, Repr

/-- Constructing a ResourceLimits: pydantic runs the three string
validators; `timeout` and `max_processes` have NO validator, so any integer
is accepted.  A failing validator raises ValueError (the `.error` case). -/
def mkResourceLimits (cpu memory disk : String) (timeout max_processes : Int) :
    Except String ResourceLimits :=
  if cpu_format_ok cpu = false then
    .error "CPU 限制必须是数字格式"
  else if memory.length < 2 then
    .error "内存限制格式无效（需要包含单位）"
  else if mem_format_ok memory = false then
    .error "内存限制必须以 K, M, G, T 结尾或纯数字（字节）"
  else if disk.length < 2 then
    .error "磁盘限制格式无效（需要包含单位）"
  else if mem_format_ok disk = false then
    .error "磁盘限制必须以 K, M, G, T 结尾或纯数字（字节）"
  else
    .ok { cpu := cpu, memory := memory, disk := disk, timeout := timeout,
          max_processes := max_processes }

/-- Decidable equality of Except values (needed to evaluate concrete
outcomes of the fallible operations). -/
instance exceptDecidableEq {e a : Type} [DecidableEq e] [DecidableEq a] :
    DecidableEq (Except e a) := fun x y =>
  match x, y with
  | .error u, .error v =>
    if h : u = v then isTrue (by subst h; rfl)
    else isFalse (by intro hc; injection hc with h2; exact h h2)
  | .ok u, .ok v =>
    if h : u = v then isTrue (by subst h; rfl)
    else isFalse (by intro hc; injection hc with h2; exact h h2)
  | .error _, .ok _ => isFalse (by intro hc; exact Except.noConfusion hc)
  | .ok _, .error _ => isFalse (by intro hc; exact Except.noConfusion hc)

/-! Concrete fixtures used to evaluate the model at specific inputs. -/

/-- A runtime whose table holds one registered, running container "c". -/
def tableC : ContainerTable := [("c", { name := "n0", status := "running", created_at := 0 })]

/-- A world where the docker exec subprocess would take 5 seconds (a
command that sleeps 5 seconds); everything else at its defaults. -/
def behSleep : DockerBehavior := { execDuration := 5 }

/-- EXECUTE_COMMAND of a 5-second command against container "c" with a
1-second request timeout. -/
def reqSleep : ActionRequest :=
  { action_type := .execute_command,
    parameters := [("command", .str "sleep 5"), ("container_id", .str "c")],
    timeout := 1 }

/-- RUN_CODE request that supplies code and a container id but NO language
parameter. -/
def reqRunNoLang : ActionRequest :=
  { action_type := .run_code,
    parameters := [("code", .str "x=1"), ("container_id", .str "c")],
    timeout := 30 }

/-- A terminal response, as stored by a finished task. -/
def respDone : ActionResponse :=
  { action_id := "a", status := .completed, result := some [("success", .bool true)] }

/-- A world where the docker cp subprocess fails (exit 1). -/
def behCpFail : DockerBehavior := { cpExit := 1 }

/-! ## Helper lemmas -/

/-- Filtering out every pair with key k leaves nothing for find? to find. -/
theorem find?_filter_out {α : Type} (l : List (String × α)) (k : String) :
    ((l.filter fun p => !(p.1 == k)).find? fun p => p.1 == k) = none := by
  induction l with
  | nil => rfl
  | cons p rest ih =>
    by_cases h : p.1 == k
    · simpa [List.filter_cons, h] using ih
    · simpa [List.filter_cons, h, List.find?] using ih

theorem lookupTask_eraseTask (s : ServerTable) (aid : String) :
    lookupTask (eraseTask s aid) aid = none := by
  simp [lookupTask, eraseTask, find?_filter_out]

theorem contains_removeEntry (t : ContainerTable) (cid : String) :
    containsContainer (removeContainerEntry t cid) cid = false := by
  simp [containsContainer, lookupContainer, removeContainerEntry, find?_filter_out]

theorem getParam_overwrite (l : List (String × Value)) (k : String) (v : Value)
    (h : (l.find? fun p => p.1 == k).isSome = true) :
    getParam (l.map fun p => if p.1 == k then (k, v) else p) k = some v := by
  induction l with
  | nil => simp [List.find?] at h
  | cons p rest ih =>
    by_cases hp : p.1 == k
    · simp [getParam, List.find?, hp]
    · have h2 : (rest.find? fun p => p.1 == k).isSome = true := by
        simpa [List.find?, hp] using h
      simpa [getParam, List.find?, hp] using ih h2

theorem getParam_append_missing (l : List (String × Value)) (k : String) (v : Value)
    (h : (l.find? fun p => p.1 == k) = none) :
    getParam (l ++ [(k, v)]) k = some v := by
  induction l with
  | nil => simp [getParam, List.find?]
  | cons p rest ih =>
    by_cases hp : p.1 == k
    · simp [List.find?, hp] at h
    · have h2 : (rest.find? fun p => p.1 == k) = none := by
        simpa [List.find?, hp] using h
      simpa [getParam, List.find?, hp] using ih h2

/-- A dict assignment makes the assigned value visible under its key. -/
theorem getParam_setKey (l : List (String × Value)) (k : String) (v : Value) :
    getParam (setKey l k v) k = some v := by
  by_cases h : (l.find? fun p => p.1 == k).isSome = true
  · simpa [setKey, h] using getParam_overwrite l k v h
  · have h2 : (l.find? fun p => p.1 == k) = none := by
      cases hf : l.find? fun p => p.1 == k
      · rfl
      · simp [hf] at h
    simpa [setKey, h2] using getParam_append_missing l k v h2

theorem mem_keys_of_lookupTask (s : ServerTable) (aid : String) (ts : TaskState)
    (h : lookupTask s aid = some ts) : aid ∈ get_running_actions s := by
  induction s with
  | nil => simp [lookupTask, List.find?] at h
  | cons p rest ih =>
    by_cases hp : p.1 == aid
    · have : p.1 = aid := by simpa using hp
      simp [get_running_actions, this]
    · have h2 : lookupTask rest aid = some ts := by
        simpa [lookupTask, List.find?, hp] using h
      simp [get_running_actions] at ih ⊢
      exact Or.inr (ih h2)

theorem keys_cancelMap (s : ServerTable) (aid : String) :
    get_running_actions
      (s.map fun p => if p.1 == aid then (p.1, TaskState.cancelled) else p) =
    get_running_actions s := by
  induction s with
  | nil => rfl
  | cons p rest ih =>
    have hh : (if p.1 == aid then (p.1, TaskState.cancelled) else p).1 = p.1 := by
      by_cases hp : p.1 == aid <;> simp [hp]
    simp only [get_running_actions, List.map_cons] at ih ⊢
    rw [hh, ih]

theorem lookupTask_cancelMap (s : ServerTable) (aid : String) (ts : TaskState)
    (h : lookupTask s aid = some ts) :
    lookupTask (s.map fun p => if p.1 == aid then (p.1, TaskState.cancelled) else p) aid =
      some .cancelled := by
  induction s with
  | nil => simp [lookupTask, List.find?] at h
  | cons p rest ih =>
    by_cases hp : p.1 == aid
    · simp [lookupTask, List.find?, hp]
    · have h2 : lookupTask rest aid = some ts := by
        simpa [lookupTask, List.find?, hp] using h
      simpa [lookupTask, List.find?, hp] using ih h2

/-- remove_container on an unregistered id: the raise branch. -/
theorem remove_container_unknown (t : ContainerTable) (b : DockerBehavior)
    (cid : String) (h : containsContainer t cid = false) :
    remove_container t b cid =
      { result := .error ("容器未找到: " ++ cid), table := t,
        ops := [.remove], elapsed := 0 } := by
  simp [remove_container, h]

/-- If remove_container returned True, its container is gone from the
resulting table. -/
theorem remove_ok_not_contains (t : ContainerTable) (b : DockerBehavior) (cid : String)
    (h : (remove_container t b cid).result = .ok true) :
    containsContainer (remove_container t b cid).table cid = false := by
  by_cases hc : containsContainer t cid = false
  · simp [remove_container, hc] at h
  · cases hs : (get_container_status t b cid).result with
    | error msg => simp [remove_container, hc, hs] at h
    | ok info =>
      by_cases hrm : b.rmExit ≠ 0
      · simp [remove_container, hc, hs, hrm] at h
      · simp [remove_container, hc, hs, hrm, contains_removeEntry]

/-! ## Claim C2 -/

/-- C2: every ActionRequest whose action type has no registered handler
produces a FAILED response carrying an error message, with no runtime
operation invoked and the container table untouched. -/
theorem C2_unregistered_type (req : ActionRequest) (aid : String)
    (t : ContainerTable) (b : DockerBehavior)
    (h : hasHandler req.action_type = false) :
    (execute_action req aid t b).response.status = .failed ∧
    (execute_action req aid t b).response.error.isSome = true ∧
    (execute_action req aid t b).ops = [] ∧
    (execute_action req aid t b).table = t := by
  simp [execute_action, h]

theorem C2_unregistered_type_witness :
    hasHandler ActionType.custom = false ∧
    (execute_action { action_type := .custom } "a0" tableC behSleep).response.status = .failed ∧
    (execute_action { action_type := .custom } "a0" tableC behSleep).response.error.isSome = true ∧
    (execute_action { action_type := .custom } "a0" tableC behSleep).ops = [] ∧
    (execute_action { action_type := .custom } "a0" tableC behSleep).table = tableC := by
  refine ⟨by decide, ?_⟩
  exact C2_unregistered_type { action_type := .custom } "a0" tableC behSleep (by decide)

/-! ## Claim C3 -/

/-- C3: get_action_result is a non-blocking consuming read — unknown id:
None, table untouched; unfinished task: None, table untouched; task
finished with a response: the first call removes the entry and returns the
response, and a repeated call on the resulting table returns None and
changes nothing. -/
theorem C3_consuming_read (s : ServerTable) (aid : String) :
    (lookupTask s aid = none → get_action_result s aid = (.ok none, s)) ∧
    (lookupTask s aid = some .running → get_action_result s aid = (.ok none, s)) ∧
    (∀ r, lookupTask s aid = some (.done r) →
      get_action_result s aid = (.ok (some r), eraseTask s aid) ∧
      get_action_result (eraseTask s aid) aid = (.ok none, eraseTask s aid)) := by
  refine ⟨fun h => by simp [get_action_result, h],
          fun h => by simp [get_action_result, h], ?_⟩
  intro r h
  refine ⟨by simp [get_action_result, h], ?_⟩
  simp [get_action_result, lookupTask_eraseTask s aid]

theorem C3_consuming_read_witness :
    lookupTask [("a", TaskState.done respDone)] "a" = some (.done respDone) ∧
    lookupTask [("a", TaskState.done respDone)] "zz" = none ∧
    get_action_result [("a", TaskState.done respDone)] "zz" =
      (.ok none, [("a", TaskState.done respDone)]) ∧
    get_action_result [("a", TaskState.done respDone)] "a" =
      (.ok (some respDone), eraseTask [("a", TaskState.done respDone)] "a") ∧
    get_action_result (eraseTask [("a", TaskState.done respDone)] "a") "a" =
      (.ok none, eraseTask [("a", TaskState.done respDone)] "a") := by
  refine ⟨by decide, by decide, ?_, ?_, ?_⟩
  · exact (C3_consuming_read [("a", TaskState.done respDone)] "zz").1 (by decide)
  · exact ((C3_consuming_read [("a", TaskState.done respDone)] "a").2.2 respDone (by decide)).1
  · exact ((C3_consuming_read [("a", TaskState.done respDone)] "a").2.2 respDone (by decide)).2

/-! ## Claim C4 -/

/-- C4 as stated is false: cancelling a running action returns true but the
entry is NOT removed — it still shows up in get_running_actions. -/
theorem C4_counterexample :
    (cancel_action [("a", TaskState.running)] "a").1 = true ∧
    "a" ∈ get_running_actions (cancel_action [("a", TaskState.running)] "a").2 := by
  decide

/-- C4 amended: cancel_action returns false and changes nothing for an
unknown or already-finished action; for a running action it cancels the
task and returns true, but the running-actions table keeps the (now
cancelled) entry: the action id still appears in get_running_actions. -/
theorem C4_amended (s : ServerTable) (aid : String) :
    (lookupTask s aid = none → cancel_action s aid = (false, s)) ∧
    (∀ ts, lookupTask s aid = some ts → taskDone ts = true →
      cancel_action s aid = (false, s)) ∧
    (lookupTask s aid = some .running →
      (cancel_action s aid).1 = true ∧
      get_running_actions (cancel_action s aid).2 = get_running_actions s ∧
      aid ∈ get_running_actions (cancel_action s aid).2 ∧
      lookupTask (cancel_action s aid).2 aid = some .cancelled) := by
  refine ⟨fun h => by simp [cancel_action, h], ?_, ?_⟩
  · intro ts h hdone
    simp [cancel_action, h, hdone]
  · intro h
    have hc : cancel_action s aid =
        (true, s.map fun p => if p.1 == aid then (p.1, TaskState.cancelled) else p) := by
      unfold cancel_action
      rw [h]
      rfl
    refine ⟨by rw [hc], ?_, ?_, ?_⟩
    · rw [hc]
      exact keys_cancelMap s aid
    · rw [hc]
      rw [keys_cancelMap s aid]
      exact mem_keys_of_lookupTask s aid .running h
    · rw [hc]
      exact lookupTask_cancelMap s aid .running h

theorem C4_amended_witness :
    lookupTask [("a", TaskState.running)] "a" = some .running ∧
    lookupTask [("a", TaskState.running)] "zz" = none ∧
    cancel_action [("a", TaskState.running)] "zz" = (false, [("a", TaskState.running)]) ∧
    (cancel_action [("a", TaskState.running)] "a").1 = true ∧
    "a" ∈ get_running_actions (cancel_action [("a", TaskState.running)] "a").2 := by
  refine ⟨by decide, by decide, ?_, ?_, ?_⟩
  · exact (C4_amended [("a", TaskState.running)] "zz").1 (by decide)
  · exact ((C4_amended [("a", TaskState.running)] "a").2.2 (by decide)).1
  · exact ((C4_amended [("a", TaskState.running)] "a").2.2 (by decide)).2.2.1

/-! ## Claim C5 -/

/-- C5 as stated is false: remove_container on an id that was already
removed RAISES the "not found" exception instead of returning a failure
result (the membership guard sits outside the try/except). -/
theorem C5_counterexample :
    (remove_container tableC {} "c").result = .ok true ∧
    (remove_container (remove_container tableC {} "c").table {} "c").result =
      Except.error "容器未找到: c" ∧
    (remove_container (remove_container tableC {} "c").table {} "c").table =
      (remove_container tableC {} "c").table := by
  decide

/-- C5 amended: for an unregistered container id (including one already
removed by a previous successful remove_container call) remove_container
raises a "not found" exception and leaves the table unchanged. -/
theorem C5_amended :
    (∀ (t : ContainerTable) (b : DockerBehavior) (cid : String),
      containsContainer t cid = false →
      remove_container t b cid =
        { result := .error ("容器未找到: " ++ cid), table := t,
          ops := [.remove], elapsed := 0 }) ∧
    (∀ (t : ContainerTable) (b b2 : DockerBehavior) (cid : String),
      (remove_container t b cid).result = .ok true →
      (remove_container (remove_container t b cid).table b2 cid).result =
        .error ("容器未找到: " ++ cid) ∧
      (remove_container (remove_container t b cid).table b2 cid).table =
        (remove_container t b cid).table) := by
  constructor
  · exact remove_container_unknown
  · intro t b b2 cid h
    have hc := remove_ok_not_contains t b cid h
    have he := remove_container_unknown (remove_container t b cid).table b2 cid hc
    exact ⟨by rw [he], by rw [he]⟩

theorem C5_amended_witness :
    containsContainer ([] : ContainerTable) "x" = false ∧
    remove_container ([] : ContainerTable) {} "x" =
      { result := .error "容器未找到: x", table := [], ops := [.remove], elapsed := 0 } ∧
    (remove_container tableC {} "c").result = .ok true ∧
    (remove_container (remove_container tableC {} "c").table {} "c").result =
      .error "容器未找到: c" := by
  refine ⟨by decide, ?_, by decide, ?_⟩
  · exact C5_amended.1 [] {} "x" (by decide)
  · exact (C5_amended.2 tableC {} {} "c" (by decide)).1

/-! ## Claim C6 -/

/-- C6 as stated is false: ResourceLimits accepts cpu="0" (not positive)
and timeout=0 (not > 0) without any construction error. -/
theorem C6_counterexample :
    mkResourceLimits "0" "1G" "10G" 0 10 =
      .ok { cpu := "0", memory := "1G", disk := "10G", timeout := 0,
            max_processes := 10 } := by
  decide

/-- C6 amended: construction validates only the three strings — cpu must be
all digits or a single-dot decimal (zero IS accepted, positivity is not
checked), memory/disk must have length at least 2 and either end in
K/M/G/T (the magnitude digits are not checked, so "xG" passes) or be all
digits (so a single-digit raw byte count like "5" is rejected) — while
timeout and max_processes are accepted completely unvalidated. -/
theorem C6_amended :
    (∀ (tm mp : Int), mkResourceLimits "1" "1G" "10G" tm mp =
      .ok { cpu := "1", memory := "1G", disk := "10G", timeout := tm,
            max_processes := mp }) ∧
    mkResourceLimits "0" "1G" "10G" 300 10 =
      .ok { cpu := "0", memory := "1G", disk := "10G", timeout := 300,
            max_processes := 10 } ∧
    mkResourceLimits "1.5" "1G" "10G" 300 10 =
      .ok { cpu := "1.5", memory := "1G", disk := "10G", timeout := 300,
            max_processes := 10 } ∧
    mkResourceLimits "abc" "1G" "10G" 300 10 = .error "CPU 限制必须是数字格式" ∧
    mkResourceLimits "1.5.2" "1G" "10G" 300 10 = .error "CPU 限制必须是数字格式" ∧
    mkResourceLimits "1" "xG" "10G" 300 10 =
      .ok { cpu := "1", memory := "xG", disk := "10G", timeout := 300,
            max_processes := 10 } ∧
    mkResourceLimits "1" "5" "10G" 300 10 = .error "内存限制格式无效（需要包含单位）" ∧
    mkResourceLimits "1" "55" "10G" 300 10 =
      .ok { cpu := "1", memory := "55", disk := "10G", timeout := 300,
            max_processes := 10 } ∧
    mkResourceLimits "1" "1G" "1X" 300 10 =
      .error "磁盘限制必须以 K, M, G, T 结尾或纯数字（字节）" := by
  refine ⟨fun tm mp => rfl, ?_, ?_, ?_, ?_, ?_, ?_, ?_, ?_⟩ <;> decide

/-! ## Further helper lemmas -/

/-- A table extended with an entry for cid contains cid. -/
theorem contains_append (t : ContainerTable) (cid : String) (i : ContainerInfo) :
    containsContainer (t ++ [(cid, i)]) cid = true := by
  induction t with
  | nil => simp [containsContainer, lookupContainer, List.find?]
  | cons p rest ih =>
    by_cases hp : p.1 == cid
    · simp [containsContainer, lookupContainer, List.find?, hp]
    · simpa [containsContainer, lookupContainer, List.find?, hp] using ih

/-- execute_command never mutates the container table and always logs
exactly one exec op. -/
theorem execute_command_frame (t : ContainerTable) (b : DockerBehavior)
    (cid cmd : String) (tmo : Option ℚ) :
    (execute_command t b cid cmd tmo).table = t ∧
    (execute_command t b cid cmd tmo).ops = [.exec] := by
  by_cases h1 : containsContainer t cid = false
  · simp [execute_command, h1]
  · by_cases h2 : b.execDuration ≤ effectiveTimeout tmo
    · by_cases h3 : b.execExit = 0 <;> simp [execute_command, h1, h2, h3]
    · simp [execute_command, h1, h2]

/-! ## Claim C1 -/

/-- C1 as stated is false at a concrete input: an EXECUTE_COMMAND whose
docker exec would take 5 seconds against a 1-second request timeout ends
with status COMPLETED, not TIMED_OUT (DockerRuntime.execute_command
catches the deadline expiry internally and returns a failure dict, so the
executor's TimeoutError branch never fires); the execution_time does
reflect the 1-second deadline. -/
theorem C1_counterexample :
    effectiveTimeout (some reqSleep.timeout) < behSleep.execDuration ∧
    (execute_action reqSleep "a1" tableC behSleep).response.status = .completed ∧
    (execute_action reqSleep "a1" tableC behSleep).response.status ≠ .timed_out ∧
    (execute_action reqSleep "a1" tableC behSleep).response.execution_time = 1 ∧
    (execute_action reqSleep "a1" tableC behSleep).response.result =
      some [("output", .str "命令执行超时"), ("return_code", .int (-1)),
            ("success", .bool false)] := by
  decide

/-- C1 amended: when the docker exec outlives the request timeout in an
EXECUTE_COMMAND against a registered container, execute_action returns
status COMPLETED (never TIMED_OUT) whose result dict is the structured
timeout failure {output 命令执行超时, return_code -1, success false}, and
execution_time equals the effective timeout (≈ the timeout duration, not
the command's full duration). -/
theorem C1_amended (params md : List (String × Value)) (tm : ℚ)
    (aid cid : String) (t : ContainerTable) (b : DockerBehavior)
    (hcmd : pyTruthy (getParam params "command") = true)
    (hcid : getParam params "container_id" = some (.str cid))
    (hne : (cid == "") = false)
    (hmem : containsContainer t cid = true)
    (htm : effectiveTimeout (some tm) < b.execDuration) :
    (execute_action ⟨.execute_command, params, tm, md⟩ aid t b).response.status =
      .completed ∧
    (execute_action ⟨.execute_command, params, tm, md⟩ aid t b).response.status ≠
      .timed_out ∧
    (execute_action ⟨.execute_command, params, tm, md⟩ aid t b).response.result =
      some [("output", .str "命令执行超时"), ("return_code", .int (-1)),
            ("success", .bool false)] ∧
    (execute_action ⟨.execute_command, params, tm, md⟩ aid t b).response.execution_time =
      effectiveTimeout (some tm) := by
  have hnle : ¬(b.execDuration ≤ effectiveTimeout (some tm)) := not_le.mpr htm
  have hcidT : pyTruthy (some (Value.str cid)) = true := by simp [pyTruthy, hne]
  refine ⟨?_, ?_, ?_, ?_⟩ <;>
    simp [execute_action, hasHandler, dispatch, handle_execute_command, execute_command,
      hcmd, hcid, hcidT, hmem, hnle, asStr, execResultDict, applyUpdates, Except.map]

theorem C1_amended_witness :
    (pyTruthy (getParam reqSleep.parameters "command") = true ∧
     getParam reqSleep.parameters "container_id" = some (.str "c") ∧
     ("c" == "") = false ∧
     containsContainer tableC "c" = true ∧
     effectiveTimeout (some (1 : ℚ)) < behSleep.execDuration) ∧
    (execute_action ⟨.execute_command, reqSleep.parameters, 1, []⟩ "a1" tableC
      behSleep).response.status = .completed ∧
    (execute_action ⟨.execute_command, reqSleep.parameters, 1, []⟩ "a1" tableC
      behSleep).response.execution_time = effectiveTimeout (some (1 : ℚ)) := by
  refine ⟨⟨by decide, by decide, by decide, by decide, by decide⟩, ?_, ?_⟩
  · exact (C1_amended reqSleep.parameters [] 1 "a1" "c" tableC behSleep
      (by decide) (by decide) (by decide) (by decide) (by decide)).1
  · exact (C1_amended reqSleep.parameters [] 1 "a1" "c" tableC behSleep
      (by decide) (by decide) (by decide) (by decide) (by decide)).2.2.2

/-! ## Claim C7 -/

/-- C7 as stated is false: a RUN_CODE request that omits the language
parameter (listed by the claim as required) does NOT fail — language
defaults to "python" and the action completes. -/
theorem C7_counterexample :
    getParam reqRunNoLang.parameters "language" = none ∧
    (execute_action reqRunNoLang "a1" tableC {}).response.status = .completed ∧
    (execute_action reqRunNoLang "a1" tableC {}).response.status ≠ .failed := by
  decide

/-- C7 amended: the required parameters are command for EXECUTE_COMMAND,
code (but NOT language, which defaults to "python") for RUN_CODE,
the path parameters and containerId for the file actions, and containerId
for CHECK_STATUS; whenever one of them is missing, execute_action returns
an immediate FAILED response with an error message, no runtime operation
is invoked, and the container table is unchanged. -/
theorem C7_missing_required (req : ActionRequest) (aid : String)
    (t : ContainerTable) (b : DockerBehavior)
    (h : requiredMissing req = true) :
    (execute_action req aid t b).response.status = .failed ∧
    (execute_action req aid t b).response.error.isSome = true ∧
    (execute_action req aid t b).ops = [] ∧
    (execute_action req aid t b).table = t := by
  rcases req with ⟨ty, params, tm, md⟩
  cases ty
  case execute_command =>
    simp only [requiredMissing, Bool.not_eq_true'] at h
    simp [execute_action, hasHandler, dispatch, handle_execute_command, h, applyUpdates]
  case run_code =>
    simp only [requiredMissing, Bool.not_eq_true'] at h
    simp [execute_action, hasHandler, dispatch, handle_run_code, h, applyUpdates]
  case transfer_file =>
    simp only [requiredMissing] at h
    cases ha : pyTruthy (getParam params "source_path") <;>
    cases hb : pyTruthy (getParam params "destination_path") <;>
    cases hc2 : pyTruthy (getParam params "container_id") <;>
      simp [ha, hb, hc2] at h <;>
      simp [execute_action, hasHandler, dispatch, handle_transfer_file,
        ha, hb, hc2, applyUpdates]
  case put_file =>
    simp only [requiredMissing] at h
    cases ha : pyTruthy (getParam params "source_path") <;>
    cases hb : pyTruthy (getParam params "destination_path") <;>
    cases hc2 : pyTruthy (getParam params "container_id") <;>
      simp [ha, hb, hc2] at h <;>
      simp [execute_action, hasHandler, dispatch, handle_transfer_file,
        ha, hb, hc2, applyUpdates]
  case get_file =>
    simp only [requiredMissing] at h
    cases ha : pyTruthy (getParam params "container_path") <;>
    cases hb : pyTruthy (getParam params "host_path") <;>
    cases hc2 : pyTruthy (getParam params "container_id") <;>
      simp [ha, hb, hc2] at h <;>
      simp [execute_action, hasHandler, dispatch, handle_get_file,
        ha, hb, hc2, applyUpdates]
  case delete_file =>
    simp only [requiredMissing] at h
    cases ha : pyTruthy (getParam params "file_path") <;>
    cases hc2 : pyTruthy (getParam params "container_id") <;>
      simp [ha, hc2] at h <;>
      simp [execute_action, hasHandler, dispatch, handle_delete_file,
        ha, hc2, applyUpdates]
  case list_directory =>
    simp only [requiredMissing] at h
    cases ha : pyTruthy (getParam params "directory_path") <;>
    cases hc2 : pyTruthy (getParam params "container_id") <;>
      simp [ha, hc2] at h <;>
      simp [execute_action, hasHandler, dispatch, handle_list_directory,
        ha, hc2, applyUpdates]
  case check_status =>
    simp only [requiredMissing, Bool.not_eq_true'] at h
    simp [execute_action, hasHandler, dispatch, handle_check_status, h, applyUpdates]
  case custom =>
    simp [requiredMissing] at h

theorem C7_missing_required_witness :
    requiredMissing { action_type := .check_status } = true ∧
    (execute_action { action_type := .check_status } "a0" tableC behSleep).response.status =
      .failed ∧
    (execute_action { action_type := .check_status } "a0" tableC behSleep).ops = [] ∧
    (execute_action { action_type := .check_status } "a0" tableC behSleep).table = tableC := by
  refine ⟨by decide, ?_, ?_, ?_⟩
  · exact (C7_missing_required { action_type := .check_status } "a0" tableC behSleep
      (by decide)).1
  · exact (C7_missing_required { action_type := .check_status } "a0" tableC behSleep
      (by decide)).2.2.1
  · exact (C7_missing_required { action_type := .check_status } "a0" tableC behSleep
      (by decide)).2.2.2

/-! ## Claim C8 -/

/-- C8: an EXECUTE_COMMAND or RUN_CODE request (with its required
parameters present and a supported language) that supplies no containerId
creates exactly one container, whose fresh id lands in the table and in
response.metadata["temp_container"]; a request that does supply a
containerId creates no container and leaves the table untouched. -/
theorem C8_temp_container :
    (∀ (params md : List (String × Value)) (tm : ℚ) (aid : String)
        (t : ContainerTable) (b : DockerBehavior),
      pyTruthy (getParam params "command") = true →
      pyTruthy (getParam params "container_id") = false →
      b.createExit = 0 → b.startExit = 0 →
      containsContainer t b.newContainerId = false →
      (execute_action ⟨.execute_command, params, tm, md⟩ aid t b).ops.count .create = 1 ∧
      (execute_action ⟨.execute_command, params, tm, md⟩ aid t b).table =
        t ++ [(b.newContainerId,
               { name := b.newName, status := "running", created_at := b.now })] ∧
      getParam (execute_action ⟨.execute_command, params, tm, md⟩ aid t b).response.metadata
        "temp_container" = some (.str b.newContainerId)) ∧
    (∀ (params md : List (String × Value)) (tm : ℚ) (aid cmd : String)
        (t : ContainerTable) (b : DockerBehavior),
      pyTruthy (getParam params "code") = true →
      runCodeCommand ((getParam params "language").getD (.str "python"))
        (asStr (getParam params "code")) = .ok cmd →
      pyTruthy (getParam params "container_id") = false →
      b.createExit = 0 → b.startExit = 0 →
      containsContainer t b.newContainerId = false →
      (execute_action ⟨.run_code, params, tm, md⟩ aid t b).ops.count .create = 1 ∧
      (execute_action ⟨.run_code, params, tm, md⟩ aid t b).table =
        t ++ [(b.newContainerId,
               { name := b.newName, status := "running", created_at := b.now })] ∧
      getParam (execute_action ⟨.run_code, params, tm, md⟩ aid t b).response.metadata
        "temp_container" = some (.str b.newContainerId)) ∧
    (∀ (params md : List (String × Value)) (tm : ℚ) (aid : String)
        (t : ContainerTable) (b : DockerBehavior),
      pyTruthy (getParam params "container_id") = true →
      (execute_action ⟨.execute_command, params, tm, md⟩ aid t b).table = t ∧
      RuntimeOp.create ∉ (execute_action ⟨.execute_command, params, tm, md⟩ aid t b).ops) ∧
    (∀ (params md : List (String × Value)) (tm : ℚ) (aid : String)
        (t : ContainerTable) (b : DockerBehavior),
      pyTruthy (getParam params "container_id") = true →
      (execute_action ⟨.run_code, params, tm, md⟩ aid t b).table = t ∧
      RuntimeOp.create ∉ (execute_action ⟨.run_code, params, tm, md⟩ aid t b).ops) := by
  refine ⟨?_, ?_, ?_, ?_⟩
  · intro params md tm aid t b hcmd hnocid hce hse hfresh
    have hcc : create_container t b =
        { result := .ok b.newContainerId,
          table := t ++ [(b.newContainerId,
                          { name := b.newName, status := "running", created_at := b.now })],
          ops := [.create], elapsed := b.createDuration } := by
      simp [create_container, hce, hse, insertContainer, hfresh]
    have hmem := contains_append t b.newContainerId
      { name := b.newName, status := "running", created_at := b.now }
    refine ⟨?_, ?_, ?_⟩ <;>
      by_cases hd : b.execDuration ≤ effectiveTimeout (some tm) <;>
      by_cases hx : b.execExit = 0 <;>
      simp [execute_action, hasHandler, dispatch, handle_execute_command, hcmd, hnocid,
        hcc, execute_command, hmem, hd, hx, applyUpdates, getParam_setKey,
        Except.map, execResultDict]
  · intro params md tm aid cmd t b hcode hlang hnocid hce hse hfresh
    have hcc : create_container t b =
        { result := .ok b.newContainerId,
          table := t ++ [(b.newContainerId,
                          { name := b.newName, status := "running", created_at := b.now })],
          ops := [.create], elapsed := b.createDuration } := by
      simp [create_container, hce, hse, insertContainer, hfresh]
    have hmem := contains_append t b.newContainerId
      { name := b.newName, status := "running", created_at := b.now }
    refine ⟨?_, ?_, ?_⟩ <;>
      by_cases hd : b.execDuration ≤ effectiveTimeout (some tm) <;>
      by_cases hx : b.execExit = 0 <;>
      simp [execute_action, hasHandler, dispatch, handle_run_code, hcode, hlang, hnocid,
        hcc, execute_command, hmem, hd, hx, applyUpdates, getParam_setKey,
        Except.map, execResultDict]
  · intro params md tm aid t b hcid
    cases hcmd : pyTruthy (getParam params "command")
    · simp [execute_action, hasHandler, dispatch, handle_execute_command, hcmd, applyUpdates]
    · obtain ⟨ht, ho⟩ := execute_command_frame t b (asStr (getParam params "container_id"))
        (asStr (getParam params "command")) (some tm)
      cases hr : (execute_command t b (asStr (getParam params "container_id"))
          (asStr (getParam params "command")) (some tm)).result <;>
        simp [execute_action, hasHandler, dispatch, handle_execute_command, hcmd, hcid,
          ht, ho, hr, applyUpdates, Except.map]
  · intro params md tm aid t b hcid
    cases hcode : pyTruthy (getParam params "code")
    · simp [execute_action, hasHandler, dispatch, handle_run_code, hcode, applyUpdates]
    · cases hlang : runCodeCommand ((getParam params "language").getD (.str "python"))
          (asStr (getParam params "code"))
      · simp [execute_action, hasHandler, dispatch, handle_run_code, hcode, hlang,
          applyUpdates]
      · rename_i cmd
        obtain ⟨ht, ho⟩ := execute_command_frame t b (asStr (getParam params "container_id"))
          cmd (some tm)
        cases hr : (execute_command t b (asStr (getParam params "container_id"))
            cmd (some tm)).result <;>
          simp [execute_action, hasHandler, dispatch, handle_run_code, hcode, hlang, hcid,
            ht, ho, hr, applyUpdates, Except.map]

theorem C8_temp_container_witness :
    (execute_action ⟨.execute_command, [("command", .str "ls")], 300, []⟩ "a0" []
      {}).ops.count .create = 1 ∧
    (execute_action ⟨.execute_command, [("command", .str "ls")], 300, []⟩ "a0" []
      {}).table =
      [("cid-0", { name := "openhands-000000000000", status := "running", created_at := 0 })] ∧
    getParam (execute_action ⟨.execute_command, [("command", .str "ls")], 300, []⟩ "a0" []
      {}).response.metadata "temp_container" = some (.str "cid-0") ∧
    (execute_action ⟨.run_code, [("code", .str "x=1")], 300, []⟩ "a1" [] {}).ops.count
      .create = 1 ∧
    getParam (execute_action ⟨.run_code, [("code", .str "x=1")], 300, []⟩ "a1" []
      {}).response.metadata "temp_container" = some (.str "cid-0") ∧
    (execute_action reqSleep "a2" tableC behSleep).table = tableC ∧
    RuntimeOp.create ∉ (execute_action reqSleep "a2" tableC behSleep).ops ∧
    (execute_action reqRunNoLang "a3" tableC {}).table = tableC ∧
    RuntimeOp.create ∉ (execute_action reqRunNoLang "a3" tableC {}).ops := by
  have h1 := C8_temp_container.1 [("command", .str "ls")] [] 300 "a0" [] {}
    (by decide) (by decide) (by decide) (by decide) (by decide)
  have h2 := C8_temp_container.2.1 [("code", .str "x=1")] [] 300 "a1"
    "python -c \"x=1\"" [] {} (by decide) (by decide) (by decide) (by decide)
    (by decide) (by decide)
  have h3 := C8_temp_container.2.2.1 reqSleep.parameters [] 1 "a2" tableC behSleep
    (by decide)
  have h4 := C8_temp_container.2.2.2 reqRunNoLang.parameters [] 30 "a3" tableC {}
    (by decide)
  exact ⟨h1.1, h1.2.1, h1.2.2, h2.1, h2.2.2, h3.1, h3.2, h4.1, h4.2⟩

/-! ## Claim C9 -/

/-- C9: DockerRuntime.execute_command collapses exit codes — a docker exec
that exits 0 within the deadline yields {success true, return_code 0}; a
non-zero exit yields {success false, return_code -1}; a deadline expiry
yields {success false, return_code -1}; and every returned dict carries
return_code 0 or -1, never the command's actual non-zero exit code. -/
theorem C9_exit_code_collapse (t : ContainerTable) (b : DockerBehavior)
    (cid cmd : String) (tmo : Option ℚ)
    (hmem : containsContainer t cid = true) :
    (b.execExit = 0 → b.execDuration ≤ effectiveTimeout tmo →
      (execute_command t b cid cmd tmo).result =
        .ok { success := true, output := b.execStdout, return_code := 0, error := none }) ∧
    (b.execExit ≠ 0 → b.execDuration ≤ effectiveTimeout tmo →
      (execute_command t b cid cmd tmo).result =
        .ok { success := false, output := dockerFailMsg b.execStderr, return_code := -1,
              error := some (dockerFailMsg b.execStderr) }) ∧
    (effectiveTimeout tmo < b.execDuration →
      (execute_command t b cid cmd tmo).result =
        .ok { success := false, output := "命令执行超时", return_code := -1,
              error := some "Timeout" }) ∧
    (∀ r, (execute_command t b cid cmd tmo).result = .ok r →
      r.return_code = 0 ∨ r.return_code = -1) := by
  refine ⟨?_, ?_, ?_, ?_⟩
  · intro hx hd
    simp [execute_command, hmem, hx, hd]
  · intro hx hd
    simp [execute_command, hmem, hx, hd]
  · intro hlt
    have hnle : ¬(b.execDuration ≤ effectiveTimeout tmo) := not_le.mpr hlt
    simp [execute_command, hmem, hnle]
  · intro r hr
    by_cases hd : b.execDuration ≤ effectiveTimeout tmo
    · by_cases hx : b.execExit = 0 <;>
        simp [execute_command, hmem, hd, hx] at hr <;>
        simp [← hr]
    · simp [execute_command, hmem, hd] at hr
      simp [← hr]

theorem C9_exit_code_collapse_witness :
    containsContainer tableC "c" = true ∧
    (execute_command tableC {} "c" "true" (some 30)).result =
      .ok { success := true, output := "", return_code := 0, error := none } ∧
    (execute_command tableC { execExit := 7 } "c" "exit 7" (some 30)).result =
      .ok { success := false, output := dockerFailMsg "", return_code := -1,
            error := some (dockerFailMsg "") } ∧
    (execute_command tableC behSleep "c" "sleep 5" (some 1)).result =
      .ok { success := false, output := "命令执行超时", return_code := -1,
            error := some "Timeout" } := by
  refine ⟨by decide, ?_, ?_, ?_⟩
  · exact (C9_exit_code_collapse tableC {} "c" "true" (some 30) (by decide)).1
      (by decide) (by decide)
  · exact (C9_exit_code_collapse tableC { execExit := 7 } "c" "exit 7" (some 30)
      (by decide)).2.1 (by decide) (by decide)
  · exact (C9_exit_code_collapse tableC behSleep "c" "sleep 5" (some 1)
      (by decide)).2.2.1 (by decide)

/-! ## Claim C10 -/

/-- C10: a TRANSFER_FILE/PUT_FILE or GET_FILE request with all required
parameters present and a registered containerId completes with a result
dict whose success field is true for EVERY docker behavior — including one
whose docker cp fails, i.e. even when copy_to_container /
copy_from_container returned false, because the handlers discard that
boolean. -/
theorem C10_copy_result_discarded :
    (∀ (ty : ActionType) (params md : List (String × Value)) (tm : ℚ) (aid : String)
        (t : ContainerTable) (b : DockerBehavior),
      (ty = .transfer_file ∨ ty = .put_file) →
      pyTruthy (getParam params "source_path") = true →
      pyTruthy (getParam params "destination_path") = true →
      pyTruthy (getParam params "container_id") = true →
      containsContainer t (asStr (getParam params "container_id")) = true →
      (execute_action ⟨ty, params, tm, md⟩ aid t b).response.status = .completed ∧
      (execute_action ⟨ty, params, tm, md⟩ aid t b).response.result =
        some [("success", .bool true),
              ("source", (getParam params "source_path").getD (.str "")),
              ("destination", (getParam params "destination_path").getD (.str ""))]) ∧
    (∀ (params md : List (String × Value)) (tm : ℚ) (aid : String)
        (t : ContainerTable) (b : DockerBehavior),
      pyTruthy (getParam params "container_path") = true →
      pyTruthy (getParam params "host_path") = true →
      pyTruthy (getParam params "container_id") = true →
      containsContainer t (asStr (getParam params "container_id")) = true →
      (execute_action ⟨.get_file, params, tm, md⟩ aid t b).response.status = .completed ∧
      (execute_action ⟨.get_file, params, tm, md⟩ aid t b).response.result =
        some [("success", .bool true),
              ("container_path", (getParam params "container_path").getD (.str "")),
              ("host_path", (getParam params "host_path").getD (.str ""))]) := by
  constructor
  · intro ty params md tm aid t b hty ha hb2 hc2 hmem
    rcases hty with hty | hty <;> subst hty <;>
      by_cases hcp : b.cpExit = 0 <;>
      simp [execute_action, hasHandler, dispatch, handle_transfer_file, ha, hb2, hc2,
        copy_to_container, hmem, hcp, applyUpdates]
  · intro params md tm aid t b ha hb2 hc2 hmem
    by_cases hcp : b.cpExit = 0 <;>
      simp [execute_action, hasHandler, dispatch, handle_get_file, ha, hb2, hc2,
        copy_from_container, hmem, hcp, applyUpdates]

theorem C10_copy_result_discarded_witness :
    (copy_to_container tableC behCpFail "c" "/a" "/b").result = .ok false ∧
    (copy_from_container tableC behCpFail "c" "/x" "/y").result = .ok false ∧
    (execute_action
      ⟨.transfer_file, [("source_path", .str "/a"), ("destination_path", .str "/b"),
                        ("container_id", .str "c")], 300, []⟩ "a0" tableC
      behCpFail).response.result =
      some [("success", .bool true), ("source", .str "/a"), ("destination", .str "/b")] ∧
    (execute_action
      ⟨.get_file, [("container_path", .str "/x"), ("host_path", .str "/y"),
                   ("container_id", .str "c")], 300, []⟩ "a1" tableC
      behCpFail).response.result =
      some [("success", .bool true), ("container_path", .str "/x"),
            ("host_path", .str "/y")] := by
  refine ⟨by decide, by decide, ?_, ?_⟩
  · exact (C10_copy_result_discarded.1 .transfer_file
      [("source_path", .str "/a"), ("destination_path", .str "/b"),
       ("container_id", .str "c")] [] 300 "a0" tableC behCpFail (Or.inl rfl)
      (by decide) (by decide) (by decide) (by decide)).2
  · exact (C10_copy_result_discarded.2
      [("container_path", .str "/x"), ("host_path", .str "/y"),
       ("container_id", .str "c")] [] 300 "a1" tableC behCpFail
      (by decide) (by decide) (by decide) (by decide)).2

end MetisRuntime
